import Mathlib

/-!
Verification of the DFU transport engine (src/api/dfu/dfuTransport.js and
src/api/dfu/dfuConstants.js).

The promise-chained orchestrator is embedded shallowly as a state monad
`M α := Counters → List DfuAction × Counters × Except DfuError α`: a computation
records the trace of calls it makes to its collaborators (control point
service, object writer), threads a per-call-kind counter, and either resolves
with a value or rejects with a `DfuError`, exactly as the promise chain in the
source resolves or rejects.  Collaborator responses are supplied by an oracle
environment (`DeviceEnv`) indexed by the call count, so retries can observe
different outcomes on different attempts.
-/

set_option maxHeartbeats 1000000

/- ## Constants from src/api/dfu/dfuConstants.js -/

def ControlPointOpcode.CREATE : Nat := 0x01
def ControlPointOpcode.SET_PRN : Nat := 0x02
def ControlPointOpcode.CALCULATE_CRC : Nat := 0x03
def ControlPointOpcode.EXECUTE : Nat := 0x04
def ControlPointOpcode.SELECT : Nat := 0x06
def ControlPointOpcode.RESPONSE : Nat := 0x60

def ResultCode.INVALID_CODE : Nat := 0x00
def ResultCode.SUCCESS : Nat := 0x01
def ResultCode.OPCODE_NOT_SUPPORTED : Nat := 0x02
def ResultCode.INVALID_PARAMETER : Nat := 0x03
def ResultCode.INSUFFICIENT_RESOURCES : Nat := 0x04
def ResultCode.INVALID_OBJECT : Nat := 0x05
def ResultCode.UNSUPPORTED_TYPE : Nat := 0x07
def ResultCode.OPERATION_NOT_PERMITTED : Nat := 0x08
def ResultCode.OPERATION_FAILED : Nat := 0x0A

def ObjectType.COMMAND : Nat := 0x01
def ObjectType.DATA : Nat := 0x02

def ErrorCode.ABORTED : Nat := 0x01
def ErrorCode.NOTIFICATION_TIMEOUT : Nat := 0x02
def ErrorCode.UNEXPECTED_NOTIFICATION : Nat := 0x03
def ErrorCode.INVALID_CRC : Nat := 0x04
def ErrorCode.INVALID_OFFSET : Nat := 0x05
def ErrorCode.WRITE_ERROR : Nat := 0x06
def ErrorCode.COMMAND_ERROR : Nat := 0x07
def ErrorCode.NO_DFU_CHARACTERISTIC : Nat := 0x08
def ErrorCode.NO_DFU_SERVICE : Nat := 0x09
def ErrorCode.NOTIFICATION_START_ERROR : Nat := 0x10
def ErrorCode.NOTIFICATION_STOP_ERROR : Nat := 0x11
def ErrorCode.INIT_PACKET_TOO_LARGE : Nat := 0x12
def ErrorCode.DISCONNECTION_TIMEOUT : Nat := 0x13
def ErrorCode.CONNECTION_PARAM_ERROR : Nat := 0x14
def ErrorCode.ATT_MTU_ERROR : Nat := 0x15

/-- Error objects produced by `createError(code, message)` in dfuConstants.js:
a message together with a numeric `code` field. -/
structure DfuError where
  code : Nat
  message : String
deriving Repr, DecidableEq

/-- Translation of `createError` from dfuConstants.js. -/
def createError (code : Nat) (message : String) : DfuError :=
  { code := code, message := message }

/- ## The effect model for the promise chains of the orchestrator -/

/-- An `{offset, crc32}` progress value as threaded through the transfer. -/
structure Progress where
  offset : Nat
  crc32 : Nat
deriving Repr, DecidableEq

/-- One observable call made by the orchestrator to its collaborators.
`writerWrite` is a call to `writeObject` of the Object Writer; the other three
are control point service commands.  The `offset`/`crc32` arguments of the
writer call are `Option Nat` because the source passes them through unchanged
and `_createAndWriteObject` is invoked without them (undefined) on the
non-resumable init packet path. -/
inductive DfuAction where
  | createObject (objectType : Nat) (size : Nat)
  | writerWrite (size : Nat) (offset : Option Nat) (crc32 : Option Nat)
  | calculateChecksum
  | execute
deriving Repr, DecidableEq

/-- How many calls of each kind have been made so far; used to index the
oracle environment so each call can receive its own response. -/
structure Counters where
  creates : Nat
  writes : Nat
  checksums : Nat
  executes : Nat
deriving Repr, DecidableEq

def bumpCreates (c : Counters) : Counters :=
  { c with creates := c.creates + 1 }

def bumpWrites (c : Counters) : Counters :=
  { c with writes := c.writes + 1 }

def bumpChecksums (c : Counters) : Counters :=
  { c with checksums := c.checksums + 1 }

def bumpExecutes (c : Counters) : Counters :=
  { c with executes := c.executes + 1 }

/-- A promise-chain computation: from the current call counters, produce the
trace of collaborator calls, the updated counters, and resolution or
rejection. -/
def M (α : Type) : Type :=
  Counters → List DfuAction × Counters × Except DfuError α

/-- Models `Promise.resolve(a)`. -/
def mpure {α : Type} (a : α) : M α := fun c => ([], c, Except.ok a)

/-- Models `.then` chaining: a rejection short-circuits the rest of the chain. -/
def mbind {α β : Type} (x : M α) (f : α → M β) : M β := fun c =>
  match x c with
  | (tr, c2, Except.error e) => (tr, c2, Except.error e)
  | (tr, c2, Except.ok a) =>
    match f a c2 with
    | (tr2, c3, r) => (tr ++ tr2, c3, r)

/-- Oracle supplying the outcome of the i-th call of each kind.
`createResult`/`executeResult` model `ControlPointService.createObject` /
`execute`; `writeResult` models `DfuObjectWriter.writeObject` (the progress it
believes it reached); `checksumResult` models
`ControlPointService.calculateChecksum` (the device-reported progress). -/
structure DeviceEnv where
  createResult : Nat → Except DfuError Unit
  writeResult : Nat → Except DfuError Progress
  checksumResult : Nat → Except DfuError Progress
  executeResult : Nat → Except DfuError Unit

def callCreateObject (env : DeviceEnv) (objectType size : Nat) : M Unit := fun c =>
  ([DfuAction.createObject objectType size], bumpCreates c, env.createResult c.creates)

def callWriterWrite (env : DeviceEnv) (size : Nat) (offset crc32 : Option Nat) : M Progress := fun c =>
  ([DfuAction.writerWrite size offset crc32], bumpWrites c, env.writeResult c.writes)

def callCalculateChecksum (env : DeviceEnv) : M Progress := fun c =>
  ([DfuAction.calculateChecksum], bumpChecksums c, env.checksumResult c.checksums)

def callExecute (env : DeviceEnv) : M Unit := fun c =>
  ([DfuAction.execute], bumpExecutes c, env.executeResult c.executes)

/- ## The orchestrator, from src/api/dfu/dfuTransport.js -/

def MAX_RETRIES : Nat := 3

/-- Translation of `_shouldRetry(attempts, error)` (dfuTransport.js lines 464-471). -/
def shouldRetry (attempts : Nat) (error : DfuError) : Bool :=
  if attempts < MAX_RETRIES ∧
      error.code ≠ ErrorCode.ABORTED ∧
      error.code ≠ ErrorCode.NOTIFICATION_TIMEOUT then
    true
  else
    false

/-- The pure comparison performed inside `_validateProgress` between the
progress reported by the object writer and the response of
`calculateChecksum`: offset first, then crc32 (lines 477-484). -/
def validateProgressCheck (progressInfo response : Progress) : Except DfuError Unit :=
  if progressInfo.offset ≠ response.offset then
    Except.error (createError ErrorCode.INVALID_OFFSET
      ("Error when validating offset. Got " ++ toString response.offset ++
        ", but expected " ++ toString progressInfo.offset ++ "."))
  else if progressInfo.crc32 ≠ response.crc32 then
    Except.error (createError ErrorCode.INVALID_CRC
      ("Error when validating CRC. Got " ++ toString response.crc32 ++
        ", but expected " ++ toString progressInfo.crc32 ++ "."))
  else
    Except.ok ()

/-- Translation of `_validateProgress(progressInfo)` (lines 473-486): ask the device to
`calculateChecksum` and compare the response against `progressInfo`. -/
def validateProgress (env : DeviceEnv) (progressInfo : Progress) : M Unit :=
  mbind (callCalculateChecksum env) (fun response c =>
    ([], c, validateProgressCheck progressInfo response))

/-- Translation of `_writeObject(data, type, offset, crc32)` (lines 455-462): write through
the object writer, cross-check the progress, then `execute()`, and resolve
with the progress reported by the writer. -/
def writeObject (env : DeviceEnv) (data : List Nat) (objectType : Nat)
    (offset crc32 : Option Nat) : M Progress :=
  mbind (callWriterWrite env data.length offset crc32) (fun progress =>
  mbind (validateProgress env progress) (fun _ =>
  mbind (callExecute env) (fun _ =>
  mpure progress)))

/-- One attempt of the `tryWrite` closure inside `_createAndWriteObject`
(lines 427-438): `createObject(type, data.length)` followed by
`_writeObject(data, type, offset, crc32)`. -/
def attemptOnce (env : DeviceEnv) (data : List Nat) (objectType : Nat)
    (offset crc32 : Option Nat) : M Progress :=
  mbind (callCreateObject env objectType data.length) (fun _ =>
    writeObject env data objectType offset crc32)

theorem shouldRetry_true_iff (attempts : Nat) (error : DfuError) :
    shouldRetry attempts error = true ↔
      attempts < MAX_RETRIES ∧
        error.code ≠ ErrorCode.ABORTED ∧
        error.code ≠ ErrorCode.NOTIFICATION_TIMEOUT := by
  unfold shouldRetry
  split
  next h => simp [h]
  next h => simp [h]

/-- The retry loop of `_createAndWriteObject` (lines 424-442): on failure,
increment `attempts` and retry the whole attempt (from the same `data`,
`offset`, `crc32`) while `_shouldRetry` allows it, otherwise reject with the
last error. -/
def tryWrite (env : DeviceEnv) (data : List Nat) (objectType : Nat)
    (offset crc32 : Option Nat) (attempts : Nat) (c : Counters) :
    List DfuAction × Counters × Except DfuError Progress :=
  match attemptOnce env data objectType offset crc32 c with
  | (tr, c2, Except.ok p) => (tr, c2, Except.ok p)
  | (tr, c2, Except.error e) =>
    if h : shouldRetry (attempts + 1) e = true then
      match tryWrite env data objectType offset crc32 (attempts + 1) c2 with
      | (tr2, c3, r2) => (tr ++ tr2, c3, r2)
    else
      (tr, c2, Except.error e)
termination_by MAX_RETRIES - attempts
decreasing_by
  have hlt := ((shouldRetry_true_iff (attempts + 1) e).mp h).1
  omega

/-- Translation of `_createAndWriteObject(data, type, offset, crc32)` (lines 424-442):
run `tryWrite` with `attempts = 0`. -/
def createAndWriteObject (env : DeviceEnv) (data : List Nat) (objectType : Nat)
    (offset crc32 : Option Nat) : M Progress := fun c =>
  tryWrite env data objectType offset crc32 0 c

/-- Translation of `_createAndWriteObjects(objects, type, offset, crc32)` (lines 405-411):
a `reduce` over the objects, starting from `Promise.resolve({offset, crc32})`,
chaining the transfer of each object on the progress of the previous promise. -/
def createAndWriteObjects (env : DeviceEnv) (objects : List (List Nat))
    (objectType : Nat) (offset crc32 : Nat) : M Progress :=
  objects.foldl
    (fun prevPromise object =>
      mbind prevPromise (fun progress =>
        createAndWriteObject env object objectType
          (some progress.offset) (some progress.crc32)))
    (mpure { offset := offset, crc32 := crc32 })

/-- The init packet transfer state computed by `getInitPacketState` (the
`InitPacketState` model class lives outside src/; its fields are exactly the
ones `sendInitPacket` reads). -/
structure InitPacketState where
  offset : Nat
  crc32 : Nat
  remainingData : List Nat
  isResumable : Bool

/-- The firmware transfer state computed by `getFirmwareState` (the
`FirmwareState` model class lives outside src/; its fields are exactly the
ones `sendFirmware` reads). -/
structure FirmwareState where
  offset : Nat
  crc32 : Nat
  remainingObjects : List (List Nat)
  remainingPartialObject : List Nat
  isResumable : Bool

/-- Translation of `sendInitPacket(data)` (lines 246-257), from the point where the transfer
state has been obtained: if resumable, `_writeObject` the remaining data
directly from the device-reported offset/crc32; otherwise
`_createAndWriteObject` with no starting offset/crc32 (the source calls it
with only two arguments, so `offset` and `crc32` are undefined). -/
def sendInitPacket (env : DeviceEnv) (state : InitPacketState) : M Progress :=
  if state.isResumable then
    writeObject env state.remainingData ObjectType.COMMAND
      (some state.offset) (some state.crc32)
  else
    createAndWriteObject env state.remainingData ObjectType.COMMAND none none

/-- Translation of `sendFirmware(data)` (lines 266-284), from the point where the transfer
state has been obtained: if resumable, first `_writeObject` the remaining
partial object from the device-reported offset/crc32, then
`_createAndWriteObjects` the remaining whole objects from the resulting
progress; otherwise `_createAndWriteObjects` from the offset/crc32 of the state. -/
def sendFirmware (env : DeviceEnv) (state : FirmwareState) : M Progress :=
  if state.isResumable then
    mbind
      (writeObject env state.remainingPartialObject ObjectType.DATA
        (some state.offset) (some state.crc32))
      (fun progress =>
        createAndWriteObjects env state.remainingObjects ObjectType.DATA
          progress.offset progress.crc32)
  else
    createAndWriteObjects env state.remainingObjects ObjectType.DATA
      state.offset state.crc32

/-- Spec-side rendering of the firmware loop (spec section 9): an explicit
sequential fold over the ordered remaining objects, each step consuming the
progress produced by the previous one. -/
def sequentialObjectFold (env : DeviceEnv) (objectType : Nat) :
    List (List Nat) → Progress → M Progress
  | [], p => mpure p
  | object :: rest, p =>
    mbind
      (createAndWriteObject env object objectType (some p.offset) (some p.crc32))
      (fun p2 => sequentialObjectFold env objectType rest p2)

/-- Number of `createObject` commands in a trace: one per transfer attempt. -/
def countCreates (tr : List DfuAction) : Nat :=
  tr.countP fun a =>
    match a with
    | DfuAction.createObject _ _ => true
    | _ => false

/-- Every writer call in the trace starts from the given offset/crc32. -/
def usesStart (offset crc32 : Option Nat) : DfuAction → Prop
  | DfuAction.writerWrite _ o cr => o = offset ∧ cr = crc32
  | _ => True

/- ## init() lifecycle model (dfuTransport.js lines 69-97) -/

/-- The transport parameters read by `init()`.  JavaScript truthiness is
modelled by treating 0 as an unset (or explicitly zero, hence falsy)
`prnValue`/`mtuSize`. -/
structure TransportParameters where
  prnValue : Nat
  mtuSize : Nat
deriving Repr, DecidableEq

/-- One observable step of `init()`: connecting, discovering the control and
packet characteristics, enabling notifications on the control characteristic,
sending the SET_PRN command, or setting the MTU size of the writer. -/
inductive InitAction where
  | connect
  | discoverCharacteristics
  | startNotifications
  | setPrnCommand (prn : Nat)
  | setMtuSize (mtu : Nat)
deriving Repr, DecidableEq

/-- Oracle for the collaborator calls made by `init()`.  Enabling
notifications reports an adapter error message which the source wraps in a
NOTIFICATION_START_ERROR (lines 362-373). -/
structure InitEnv where
  connectResult : Except DfuError Unit
  discoverResult : Except DfuError Unit
  notifyError : Option String
  setPrnCommandResult : Except DfuError Unit
deriving Repr

/-- Translation of `init()` (lines 69-97) as a transition on the
`_isInitialized` flag.  When the flag is set, resolve at once with no
collaborator calls.  Otherwise connect if needed, discover the characteristic
ids, start notifications, then (if `prnValue` is truthy) run `_setPrn`, which
itself begins with a nested `this.init()` call (line 339) performed while the
flag is still false - the fuel argument makes that re-entrant call explicit,
and `none` models a computation that never resolves.  `_setMtuSize` is
synchronous and cannot fail.  The flag is set to true only by the final
`.then` of the chain. -/
def init (params : TransportParameters) (env : InitEnv) :
    Nat → Bool → Option (List InitAction × Bool × Except DfuError Unit)
  | _, true => some ([], true, Except.ok ())
  | 0, false => none
  | fuel + 1, false =>
    match env.connectResult with
    | Except.error e => some ([InitAction.connect], false, Except.error e)
    | Except.ok _ =>
      match env.discoverResult with
      | Except.error e =>
        some ([InitAction.connect, InitAction.discoverCharacteristics], false,
          Except.error e)
      | Except.ok _ =>
        match env.notifyError with
        | some msg =>
          some ([InitAction.connect, InitAction.discoverCharacteristics,
              InitAction.startNotifications], false,
            Except.error (createError ErrorCode.NOTIFICATION_START_ERROR msg))
        | none =>
          if params.prnValue ≠ 0 then
            match init params env fuel false with
            | none => none
            | some (tr2, st2, Except.error e) =>
              some ([InitAction.connect, InitAction.discoverCharacteristics,
                  InitAction.startNotifications] ++ tr2, st2, Except.error e)
            | some (tr2, _, Except.ok _) =>
              match env.setPrnCommandResult with
              | Except.error e =>
                some (([InitAction.connect, InitAction.discoverCharacteristics,
                    InitAction.startNotifications] ++ tr2) ++
                    [InitAction.setPrnCommand params.prnValue], true, Except.error e)
              | Except.ok _ =>
                some ((([InitAction.connect, InitAction.discoverCharacteristics,
                    InitAction.startNotifications] ++ tr2) ++
                    [InitAction.setPrnCommand params.prnValue]) ++
                    (if params.mtuSize ≠ 0 then [InitAction.setMtuSize params.mtuSize]
                     else []), true, Except.ok ())
          else
            some ([InitAction.connect, InitAction.discoverCharacteristics,
                InitAction.startNotifications] ++
                (if params.mtuSize ≠ 0 then [InitAction.setMtuSize params.mtuSize]
                 else []), true, Except.ok ())

/- ## Progress event model (lines 488-512) -/

/-- A `progressUpdate` event: a stage label plus an optional offset. -/
structure ProgressUpdateEvent where
  stage : String
  offset : Option Nat
deriving Repr, DecidableEq

/-- Translation of `_getObjectTypeString(type)` (lines 504-512). -/
def getObjectTypeString (objectType : Nat) : String :=
  if objectType = ObjectType.COMMAND then "init packet"
  else if objectType = ObjectType.DATA then "firmware"
  else "unknown object"

/-- Translation of `_emitTransferEvent(offset, type)` (lines 488-496): the
event always carries a stage string, and an `offset` field is added exactly
when the type is `ObjectType.DATA`. -/
def emitTransferEvent (offset : Nat) (objectType : Nat) : ProgressUpdateEvent :=
  { stage := "Transferring " ++ getObjectTypeString objectType,
    offset := if objectType = ObjectType.DATA then some offset else none }

/-- The progress record the object writer passes to its packetWritten
listener. -/
structure PacketWrittenProgress where
  offset : Nat
  type : Nat
deriving Repr, DecidableEq

/-- The packetWritten listener installed by `init()` (lines 89-91): emit a
transfer event from the progress of the written packet. -/
def onPacketWritten (progress : PacketWrittenProgress) : ProgressUpdateEvent :=
  emitTransferEvent progress.offset progress.type

/-- Translation of `_emitInitializeEvent(type)` (lines 498-502). -/
def emitInitializeEvent (objectType : Nat) : ProgressUpdateEvent :=
  { stage := "Initializing " ++ getObjectTypeString objectType,
    offset := none }

/- ## Connected devices, disconnection wait, connection parameter updates -/

/-- An adapter device record, with the fields read by the transport. -/
structure Device where
  instanceId : Nat
  address : String
  connected : Bool
deriving Repr, DecidableEq

/-- Translation of `_getConnectedDevice(targetAddress)` (lines 162-171): find
the first device whose address matches, and return it only if it is
connected. -/
def getConnectedDevice (devices : List Device) (targetAddress : String) :
    Option Device :=
  match devices.find? (fun d => d.address == targetAddress) with
  | some d => if d.connected then some d else none
  | none => none

/-- Outcome of `waitForDisconnection()`: the promise resolution together with
whether a timeout callback is still pending and whether the
deviceDisconnected listener is still attached afterwards. -/
structure WaitOutcome where
  result : Except DfuError Unit
  timerPending : Bool
  listenerAttached : Bool
deriving Repr

/-- The deviceDisconnected handler loop of `waitForDisconnection`
(lines 219-234) over the finite stream of disconnection events arriving
before the 10 second timeout fires.  A matching event clears the timeout,
removes the listener and resolves; a non-matching event is ignored; if the
stream is exhausted the timeout fires, removes the listener and rejects with
DISCONNECTION_TIMEOUT. -/
def waitForDisconnectionLoop (connectedDevice : Device) :
    List Device → WaitOutcome
  | [] =>
    { result := Except.error (createError ErrorCode.DISCONNECTION_TIMEOUT
        "Timed out when waiting for target device to disconnect."),
      timerPending := false,
      listenerAttached := false }
  | d :: rest =>
    if d.instanceId = connectedDevice.instanceId then
      { result := Except.ok (), timerPending := false, listenerAttached := false }
    else
      waitForDisconnectionLoop connectedDevice rest

/-- Translation of `waitForDisconnection()` (lines 207-236): resolve at once
if no device with the target address is connected, otherwise wait for a
disconnection event for that device, bounded by the 10 second timeout.  The
`events` list holds the disconnection events delivered before the timeout
would fire. -/
def waitForDisconnection (devices : List Device) (targetAddress : String)
    (events : List Device) : WaitOutcome :=
  match getConnectedDevice devices targetAddress with
  | none => { result := Except.ok (), timerPending := false, listenerAttached := false }
  | some connectedDevice => waitForDisconnectionLoop connectedDevice events

/-- Translation of `_handleConnParamUpdateRequest(device, connectionParameters)`
(lines 382-392): when a device with the target address is connected and the
request comes from that device, forward it to the adapter (whose outcome is
`updateError`: an error message or success) and surface a failure as a
CONNECTION_PARAM_ERROR; otherwise the request is ignored (`none`). -/
def handleConnParamUpdateRequest (devices : List Device) (targetAddress : String)
    (device : Device) (updateError : Option String) :
    Option (Except DfuError Unit) :=
  match getConnectedDevice devices targetAddress with
  | some connectedDevice =>
    if connectedDevice.instanceId = device.instanceId then
      some (match updateError with
        | some msg => Except.error (createError ErrorCode.CONNECTION_PARAM_ERROR msg)
        | none => Except.ok ())
    else
      none
  | none => none

/-- A firmware transfer running while a connection parameter update request is
handled: the handler runs on the adapter event loop outside the promise
chain of the transfer, so the pair is formed from two independent computations. -/
def sendFirmwareWithConnParamRequest (env : DeviceEnv) (state : FirmwareState)
    (c : Counters) (devices : List Device) (targetAddress : String)
    (device : Device) (updateError : Option String) :
    (List DfuAction × Counters × Except DfuError Progress) ×
      Option (Except DfuError Unit) :=
  (sendFirmware env state c,
   handleConnParamUpdateRequest devices targetAddress device updateError)

/- ## Helper lemmas -/

@[simp] theorem bumpWrites_writes (c : Counters) : (bumpWrites c).writes = c.writes + 1 := rfl

@[simp] theorem bumpWrites_checksums (c : Counters) : (bumpWrites c).checksums = c.checksums := rfl

@[simp] theorem bumpWrites_executes (c : Counters) : (bumpWrites c).executes = c.executes := rfl

@[simp] theorem bumpWrites_creates (c : Counters) : (bumpWrites c).creates = c.creates := rfl

@[simp] theorem bumpChecksums_checksums (c : Counters) : (bumpChecksums c).checksums = c.checksums + 1 := rfl

@[simp] theorem bumpChecksums_writes (c : Counters) : (bumpChecksums c).writes = c.writes := rfl

@[simp] theorem bumpChecksums_executes (c : Counters) : (bumpChecksums c).executes = c.executes := rfl

@[simp] theorem bumpChecksums_creates (c : Counters) : (bumpChecksums c).creates = c.creates := rfl

@[simp] theorem bumpCreates_creates (c : Counters) : (bumpCreates c).creates = c.creates + 1 := rfl

@[simp] theorem bumpCreates_writes (c : Counters) : (bumpCreates c).writes = c.writes := rfl

@[simp] theorem bumpCreates_checksums (c : Counters) : (bumpCreates c).checksums = c.checksums := rfl

@[simp] theorem bumpCreates_executes (c : Counters) : (bumpCreates c).executes = c.executes := rfl

@[simp] theorem bumpExecutes_executes (c : Counters) : (bumpExecutes c).executes = c.executes + 1 := rfl

/-- Closed-form evaluation of one `_writeObject` chain: the writer call, then
the checksum cross-check, then (only if the cross-check passes) `execute`. -/
theorem writeObject_run (env : DeviceEnv) (data : List Nat) (objectType : Nat)
    (offset crc32 : Option Nat) (c : Counters) :
    writeObject env data objectType offset crc32 c =
      match env.writeResult c.writes with
      | Except.error e =>
        ([DfuAction.writerWrite data.length offset crc32], bumpWrites c, Except.error e)
      | Except.ok p =>
        match env.checksumResult c.checksums with
        | Except.error e =>
          ([DfuAction.writerWrite data.length offset crc32, DfuAction.calculateChecksum],
            bumpChecksums (bumpWrites c), Except.error e)
        | Except.ok resp =>
          match validateProgressCheck p resp with
          | Except.error e =>
            ([DfuAction.writerWrite data.length offset crc32, DfuAction.calculateChecksum],
              bumpChecksums (bumpWrites c), Except.error e)
          | Except.ok _ =>
            match env.executeResult c.executes with
            | Except.error e =>
              ([DfuAction.writerWrite data.length offset crc32, DfuAction.calculateChecksum,
                  DfuAction.execute],
                bumpExecutes (bumpChecksums (bumpWrites c)), Except.error e)
            | Except.ok _ =>
              ([DfuAction.writerWrite data.length offset crc32, DfuAction.calculateChecksum,
                  DfuAction.execute],
                bumpExecutes (bumpChecksums (bumpWrites c)), Except.ok p) := by
  cases hw : env.writeResult c.writes with
  | error e =>
    simp [writeObject, mbind, callWriterWrite, hw]
  | ok p =>
    cases hc : env.checksumResult c.checksums with
    | error e =>
      simp [writeObject, mbind, callWriterWrite, validateProgress,
        callCalculateChecksum, hw, hc]
    | ok resp =>
      cases hv : validateProgressCheck p resp with
      | error e =>
        simp [writeObject, mbind, callWriterWrite, validateProgress,
          callCalculateChecksum, hw, hc, hv]
      | ok u =>
        cases he : env.executeResult c.executes with
        | error e =>
          simp [writeObject, mbind, callWriterWrite, validateProgress,
            callCalculateChecksum, callExecute, mpure, hw, hc, hv, he]
        | ok v =>
          simp [writeObject, mbind, callWriterWrite, validateProgress,
            callCalculateChecksum, callExecute, mpure, hw, hc, hv, he]

theorem shouldRetry_false_of_terminal (attempts : Nat) (e : DfuError)
    (h : e.code = ErrorCode.ABORTED ∨ e.code = ErrorCode.NOTIFICATION_TIMEOUT) :
    shouldRetry attempts e = false := by
  unfold shouldRetry
  split
  next hc => exact absurd h (by rcases hc with ⟨_, h1, h2⟩; tauto)
  next => rfl

theorem shouldRetry_false_of_exhausted (attempts : Nat) (e : DfuError)
    (h : MAX_RETRIES ≤ attempts) : shouldRetry attempts e = false := by
  unfold shouldRetry
  split
  next hc => omega
  next => rfl

theorem shouldRetry_true_of (attempts : Nat) (e : DfuError)
    (h1 : attempts < MAX_RETRIES) (h2 : e.code ≠ ErrorCode.ABORTED)
    (h3 : e.code ≠ ErrorCode.NOTIFICATION_TIMEOUT) :
    shouldRetry attempts e = true := by
  unfold shouldRetry
  split
  next => rfl
  next hc => exact absurd ⟨h1, h2, h3⟩ hc

/-- Unfolding of one round of the retry loop: success resolves. -/
theorem tryWrite_of_ok (env : DeviceEnv) (data : List Nat) (objectType : Nat)
    (offset crc32 : Option Nat) (attempts : Nat) (c : Counters)
    (tr : List DfuAction) (c2 : Counters) (p : Progress)
    (h : attemptOnce env data objectType offset crc32 c = (tr, c2, Except.ok p)) :
    tryWrite env data objectType offset crc32 attempts c = (tr, c2, Except.ok p) := by
  rw [tryWrite, h]

/-- Unfolding of one round of the retry loop: a failure that `_shouldRetry`
rejects is propagated as is. -/
theorem tryWrite_of_error_stop (env : DeviceEnv) (data : List Nat) (objectType : Nat)
    (offset crc32 : Option Nat) (attempts : Nat) (c : Counters)
    (tr : List DfuAction) (c2 : Counters) (e : DfuError)
    (h : attemptOnce env data objectType offset crc32 c = (tr, c2, Except.error e))
    (hs : shouldRetry (attempts + 1) e = false) :
    tryWrite env data objectType offset crc32 attempts c = (tr, c2, Except.error e) := by
  rw [tryWrite, h]
  simp [hs]

/-- Unfolding of one round of the retry loop: a failure that `_shouldRetry`
accepts leads to a recursive retry, prepending the trace of this round. -/
theorem tryWrite_of_error_retry (env : DeviceEnv) (data : List Nat) (objectType : Nat)
    (offset crc32 : Option Nat) (attempts : Nat) (c : Counters)
    (tr : List DfuAction) (c2 : Counters) (e : DfuError)
    (h : attemptOnce env data objectType offset crc32 c = (tr, c2, Except.error e))
    (hs : shouldRetry (attempts + 1) e = true) :
    tryWrite env data objectType offset crc32 attempts c =
      (tr ++ (tryWrite env data objectType offset crc32 (attempts + 1) c2).1,
        (tryWrite env data objectType offset crc32 (attempts + 1) c2).2) := by
  rw [tryWrite, h]
  simp [hs]

theorem countCreates_append (a b : List DfuAction) :
    countCreates (a ++ b) = countCreates a + countCreates b := by
  simp [countCreates, List.countP_append]

/-- A `_writeObject` chain never issues a `createObject` command. -/
theorem writeObject_countCreates (env : DeviceEnv) (data : List Nat)
    (objectType : Nat) (offset crc32 : Option Nat) (c : Counters) :
    countCreates (writeObject env data objectType offset crc32 c).1 = 0 := by
  rw [writeObject_run]
  repeat' split
  all_goals simp [countCreates]

/-- Every writer call inside a `_writeObject` chain starts from the offset and
crc32 the chain was given. -/
theorem writeObject_usesStart (env : DeviceEnv) (data : List Nat)
    (objectType : Nat) (offset crc32 : Option Nat) (c : Counters) :
    ∀ a ∈ (writeObject env data objectType offset crc32 c).1,
      usesStart offset crc32 a := by
  rw [writeObject_run]
  repeat' split
  all_goals intro a ha
  all_goals fin_cases ha <;> simp [usesStart]

/-- Each attempt of `_createAndWriteObject` issues exactly one `createObject`
command. -/
theorem attemptOnce_countCreates (env : DeviceEnv) (data : List Nat)
    (objectType : Nat) (offset crc32 : Option Nat) (c : Counters) :
    countCreates (attemptOnce env data objectType offset crc32 c).1 = 1 := by
  have h0 := writeObject_countCreates env data objectType offset crc32 (bumpCreates c)
  rcases hwo : writeObject env data objectType offset crc32 (bumpCreates c) with
    ⟨tr2, c3, r⟩
  rw [hwo] at h0
  simp only at h0
  unfold attemptOnce mbind callCreateObject
  cases env.createResult c.creates with
  | error e => simp [countCreates]
  | ok u =>
    simp only [hwo]
    rw [countCreates_append, h0]
    simp [countCreates]

/-- Every writer call inside one attempt starts from the given offset and
crc32. -/
theorem attemptOnce_usesStart (env : DeviceEnv) (data : List Nat)
    (objectType : Nat) (offset crc32 : Option Nat) (c : Counters) :
    ∀ a ∈ (attemptOnce env data objectType offset crc32 c).1,
      usesStart offset crc32 a := by
  have h0 := writeObject_usesStart env data objectType offset crc32 (bumpCreates c)
  rcases hwo : writeObject env data objectType offset crc32 (bumpCreates c) with
    ⟨tr2, c3, r⟩
  rw [hwo] at h0
  simp only at h0
  unfold attemptOnce mbind callCreateObject
  cases env.createResult c.creates with
  | error e => intro a ha; fin_cases ha <;> simp [usesStart]
  | ok u =>
    simp only [hwo]
    intro a ha
    simp only [List.mem_append, List.mem_singleton, List.mem_cons,
      List.not_mem_nil, or_false] at ha
    rcases ha with rfl | ha
    · simp [usesStart]
    · exact h0 a ha

/-- Retry-loop trace invariant: starting at a given attempts count, the loop
issues at most `1 + (MAX_RETRIES - (attempts + 1))` `createObject` commands
(so at most `MAX_RETRIES` in total from zero), and every writer call starts
from the same offset and crc32 the loop was given. -/
theorem tryWrite_trace_inv (env : DeviceEnv) (data : List Nat) (objectType : Nat)
    (offset crc32 : Option Nat) :
    ∀ (k attempts : Nat) (c : Counters), MAX_RETRIES - attempts ≤ k →
      countCreates (tryWrite env data objectType offset crc32 attempts c).1 ≤
        1 + (MAX_RETRIES - (attempts + 1)) ∧
      ∀ a ∈ (tryWrite env data objectType offset crc32 attempts c).1,
        usesStart offset crc32 a := by
  have hM : MAX_RETRIES = 3 := rfl
  intro k
  induction k with
  | zero =>
    intro attempts c hk
    rcases ha : attemptOnce env data objectType offset crc32 c with ⟨tr, c2, r⟩
    have hcnt := attemptOnce_countCreates env data objectType offset crc32 c
    have huse := attemptOnce_usesStart env data objectType offset crc32 c
    rw [ha] at hcnt huse
    replace hcnt : countCreates tr = 1 := hcnt
    replace huse : ∀ a ∈ tr, usesStart offset crc32 a := huse
    cases r with
    | ok p =>
      rw [tryWrite_of_ok env data objectType offset crc32 attempts c tr c2 p ha]
      refine ⟨?_, huse⟩
      show countCreates tr ≤ 1 + (MAX_RETRIES - (attempts + 1))
      omega
    | error e =>
      have hs : shouldRetry (attempts + 1) e = false :=
        shouldRetry_false_of_exhausted _ _ (by omega)
      rw [tryWrite_of_error_stop env data objectType offset crc32 attempts c tr c2 e ha hs]
      refine ⟨?_, huse⟩
      show countCreates tr ≤ 1 + (MAX_RETRIES - (attempts + 1))
      omega
  | succ k ih =>
    intro attempts c hk
    rcases ha : attemptOnce env data objectType offset crc32 c with ⟨tr, c2, r⟩
    have hcnt := attemptOnce_countCreates env data objectType offset crc32 c
    have huse := attemptOnce_usesStart env data objectType offset crc32 c
    rw [ha] at hcnt huse
    replace hcnt : countCreates tr = 1 := hcnt
    replace huse : ∀ a ∈ tr, usesStart offset crc32 a := huse
    cases r with
    | ok p =>
      rw [tryWrite_of_ok env data objectType offset crc32 attempts c tr c2 p ha]
      refine ⟨?_, huse⟩
      show countCreates tr ≤ 1 + (MAX_RETRIES - (attempts + 1))
      omega
    | error e =>
      cases hs : shouldRetry (attempts + 1) e with
      | false =>
        rw [tryWrite_of_error_stop env data objectType offset crc32 attempts c tr c2 e ha hs]
        refine ⟨?_, huse⟩
        show countCreates tr ≤ 1 + (MAX_RETRIES - (attempts + 1))
        omega
      | true =>
        rw [tryWrite_of_error_retry env data objectType offset crc32 attempts c tr c2 e ha hs]
        have hlt := ((shouldRetry_true_iff (attempts + 1) e).mp hs).1
        have hrec := ih (attempts + 1) c2 (by omega)
        have hrec1 := hrec.1
        refine ⟨?_, ?_⟩
        · show countCreates
            (tr ++ (tryWrite env data objectType offset crc32 (attempts + 1) c2).1) ≤
              1 + (MAX_RETRIES - (attempts + 1))
          rw [countCreates_append]
          omega
        · intro a hmem
          replace hmem : a ∈
              tr ++ (tryWrite env data objectType offset crc32 (attempts + 1) c2).1 := hmem
          rcases List.mem_append.mp hmem with hmem2 | hmem2
          · exact huse a hmem2
          · exact hrec.2 a hmem2

/- ## Monad laws for the promise-chain model -/

theorem mbind_mpure {α : Type} (x : M α) : mbind x mpure = x := by
  funext c
  unfold mbind mpure
  rcases h : x c with ⟨tr, c2, r⟩
  cases r <;> simp

theorem mpure_mbind {α β : Type} (a : α) (f : α → M β) : mbind (mpure a) f = f a := by
  funext c
  unfold mbind mpure
  rcases h : f a c with ⟨tr, c2, r⟩
  simp [h]

theorem mbind_assoc {α β γ : Type} (x : M α) (f : α → M β) (g : β → M γ) :
    mbind (mbind x f) g = mbind x (fun a => mbind (f a) g) := by
  funext c
  unfold mbind
  rcases h1 : x c with ⟨tr, c2, r⟩
  cases r with
  | error e => simp
  | ok a =>
    rcases h2 : f a c2 with ⟨tr2, c3, r2⟩
    cases r2 with
    | error e => simp [h2]
    | ok b =>
      rcases h3 : g b c3 with ⟨tr3, c4, r3⟩
      simp [h2, h3, List.append_assoc]

/-- The object `reduce` of `_createAndWriteObjects`, run on any start promise,
is the sequential fold threaded through that promise. -/
theorem foldl_objects_eq_fold (env : DeviceEnv) (objectType : Nat) :
    ∀ (objects : List (List Nat)) (acc : M Progress),
      objects.foldl
        (fun prevPromise object =>
          mbind prevPromise (fun progress =>
            createAndWriteObject env object objectType
              (some progress.offset) (some progress.crc32)))
        acc =
      mbind acc (fun p => sequentialObjectFold env objectType objects p) := by
  intro objects
  induction objects with
  | nil =>
    intro acc
    simp [sequentialObjectFold, mbind_mpure]
  | cons o rest ih =>
    intro acc
    rw [List.foldl_cons, ih, mbind_assoc]
    simp only [sequentialObjectFold]

/-- Unfolding of `_createAndWriteObjects` as the explicit sequential fold. -/
theorem createAndWriteObjects_eq_fold (env : DeviceEnv) (objects : List (List Nat))
    (objectType : Nat) (offset crc32 : Nat) :
    createAndWriteObjects env objects objectType offset crc32 =
      sequentialObjectFold env objectType objects { offset := offset, crc32 := crc32 } := by
  unfold createAndWriteObjects
  rw [foldl_objects_eq_fold, mpure_mbind]

/-- Whenever an `init()` run resolves successfully, it has set the
`_isInitialized` flag. -/
theorem init_ok_flag (params : TransportParameters) (env : InitEnv)
    (fuel : Nat) (st : Bool) (tr : List InitAction) (st2 : Bool)
    (h : init params env fuel st = some (tr, st2, Except.ok ())) : st2 = true := by
  cases st with
  | true =>
    cases fuel with
    | zero => simp [init] at h; exact h.2
    | succ fuel => simp [init] at h; exact h.2
  | false =>
    cases fuel with
    | zero => simp [init] at h
    | succ fuel =>
      simp only [init] at h
      repeat' split at h
      all_goals simp_all

/-- A disconnection event for the connected target resolves the wait. -/
theorem waitLoop_ok_of_mem (cd : Device) (events : List Device)
    (h : ∃ e ∈ events, e.instanceId = cd.instanceId) :
    (waitForDisconnectionLoop cd events).result = Except.ok () := by
  induction events with
  | nil => simp at h
  | cons d rest ih =>
    rcases h with ⟨e, he, heq⟩
    by_cases hd : d.instanceId = cd.instanceId
    · simp [waitForDisconnectionLoop, hd]
    · simp only [waitForDisconnectionLoop, hd, if_false]
      apply ih
      rcases List.mem_cons.mp he with rfl | he2
      · exact absurd heq hd
      · exact ⟨e, he2, heq⟩

/-- Without a matching disconnection event, the 10 second timeout fires. -/
theorem waitLoop_timeout_of_not_mem (cd : Device) (events : List Device)
    (h : ∀ e ∈ events, e.instanceId ≠ cd.instanceId) :
    waitForDisconnectionLoop cd events =
      { result := Except.error (createError ErrorCode.DISCONNECTION_TIMEOUT
          "Timed out when waiting for target device to disconnect."),
        timerPending := false, listenerAttached := false } := by
  induction events with
  | nil => rfl
  | cons d rest ih =>
    have hd : d.instanceId ≠ cd.instanceId := h d (List.mem_cons_self d rest)
    simp only [waitForDisconnectionLoop, hd, if_false]
    exact ih (fun e he => h e (List.mem_cons_of_mem d he))

/-- The wait loop always ends with the timer fired or cancelled and the
listener removed. -/
theorem waitLoop_no_leak (cd : Device) (events : List Device) :
    (waitForDisconnectionLoop cd events).timerPending = false ∧
    (waitForDisconnectionLoop cd events).listenerAttached = false := by
  induction events with
  | nil => exact ⟨rfl, rfl⟩
  | cons d rest ih =>
    by_cases hd : d.instanceId = cd.instanceId <;>
      simp [waitForDisconnectionLoop, hd, ih]

/- ## Claim theorems -/

/-- C9: the control-channel constants match the specified wire format exactly:
opcodes Create=0x01, SetPRN=0x02, CalculateChecksum=0x03, Execute=0x04,
Select=0x06, Response=0x60; result codes Success=0x01, OpcodeNotSupported=0x02,
InvalidParameter=0x03, InsufficientResources=0x04, InvalidObject=0x05,
UnsupportedType=0x07, OperationNotPermitted=0x08, OperationFailed=0x0A; and
object kind values Command=0x01, Data=0x02. -/
theorem claim_c9 :
    ControlPointOpcode.CREATE = 0x01 ∧ ControlPointOpcode.SET_PRN = 0x02 ∧
    ControlPointOpcode.CALCULATE_CRC = 0x03 ∧ ControlPointOpcode.EXECUTE = 0x04 ∧
    ControlPointOpcode.SELECT = 0x06 ∧ ControlPointOpcode.RESPONSE = 0x60 ∧
    ResultCode.SUCCESS = 0x01 ∧ ResultCode.OPCODE_NOT_SUPPORTED = 0x02 ∧
    ResultCode.INVALID_PARAMETER = 0x03 ∧ ResultCode.INSUFFICIENT_RESOURCES = 0x04 ∧
    ResultCode.INVALID_OBJECT = 0x05 ∧ ResultCode.UNSUPPORTED_TYPE = 0x07 ∧
    ResultCode.OPERATION_NOT_PERMITTED = 0x08 ∧ ResultCode.OPERATION_FAILED = 0x0A ∧
    ObjectType.COMMAND = 0x01 ∧ ObjectType.DATA = 0x02 := by
  decide

/-- C10: in the post-write cross-check the offset comparison is performed
before the crc comparison: a response whose offset differs from the offset
reported by the writer fails with InvalidOffset even if the crc also differs, and
InvalidCrc is produced exactly when the offsets agree and the crc values
differ. -/
theorem claim_c10 (p r : Progress) :
    (p.offset ≠ r.offset →
      ∃ e, validateProgressCheck p r = Except.error e ∧
        e.code = ErrorCode.INVALID_OFFSET) ∧
    (p.offset = r.offset → p.crc32 ≠ r.crc32 →
      ∃ e, validateProgressCheck p r = Except.error e ∧
        e.code = ErrorCode.INVALID_CRC) ∧
    (∀ e, validateProgressCheck p r = Except.error e →
      e.code = ErrorCode.INVALID_CRC →
      p.offset = r.offset ∧ p.crc32 ≠ r.crc32) := by
  refine ⟨?_, ?_, ?_⟩
  · intro h
    exact ⟨createError ErrorCode.INVALID_OFFSET
      ("Error when validating offset. Got " ++ toString r.offset ++
        ", but expected " ++ toString p.offset ++ "."),
      by simp [validateProgressCheck, h], rfl⟩
  · intro h1 h2
    exact ⟨createError ErrorCode.INVALID_CRC
      ("Error when validating CRC. Got " ++ toString r.crc32 ++
        ", but expected " ++ toString p.crc32 ++ "."),
      by simp [validateProgressCheck, h1, h2], rfl⟩
  · intro e he hc
    unfold validateProgressCheck at he
    split at he
    · injection he with he2
      subst he2
      simp [createError, ErrorCode.INVALID_OFFSET, ErrorCode.INVALID_CRC] at hc
    · split at he
      next h1 h2 =>
        refine ⟨by omega, h2⟩
      next h1 h2 =>
        simp at he

/-- C6: every progressUpdate event emitted for a written packet carries a
stage string, and carries an offset field exactly when the object type is
Data (firmware); for Command (init packet) objects only the stage label is
emitted, with no offset. -/
theorem claim_c6 (progress : PacketWrittenProgress) :
    (onPacketWritten progress).stage =
      "Transferring " ++ getObjectTypeString progress.type ∧
    ((onPacketWritten progress).offset.isSome ↔ progress.type = ObjectType.DATA) ∧
    (progress.type = ObjectType.DATA →
      onPacketWritten progress =
        { stage := "Transferring firmware", offset := some progress.offset }) ∧
    (progress.type = ObjectType.COMMAND →
      onPacketWritten progress =
        { stage := "Transferring init packet", offset := none }) := by
  refine ⟨rfl, ?_, ?_, ?_⟩
  · by_cases h : progress.type = ObjectType.DATA <;>
      simp [onPacketWritten, emitTransferEvent, h]
  · intro h
    simp [onPacketWritten, emitTransferEvent, getObjectTypeString, h,
      ObjectType.DATA, ObjectType.COMMAND]
  · intro h
    simp [onPacketWritten, emitTransferEvent, getObjectTypeString, h,
      ObjectType.DATA, ObjectType.COMMAND]

/-- Witness for C6 at a concrete written packet of each kind. -/
theorem claim_c6_witness :
    onPacketWritten { offset := 7, type := 2 } =
        { stage := "Transferring firmware", offset := some 7 } ∧
    onPacketWritten { offset := 7, type := 1 } =
        { stage := "Transferring init packet", offset := none } :=
  ⟨(claim_c6 { offset := 7, type := 2 }).2.2.1 rfl,
   (claim_c6 { offset := 7, type := 1 }).2.2.2 rfl⟩

/-- C8: a connection-parameter update request from the connected target device
is forwarded to the adapter, a failure to apply it surfaces as a
CONNECTION_PARAM_ERROR carrying the adapter message, and the outcome of the
handler leaves a concurrently running firmware transfer unchanged. -/
theorem claim_c8 (devices : List Device) (targetAddress : String)
    (device : Device) (updateError : Option String)
    (env : DeviceEnv) (state : FirmwareState) (c : Counters) :
    (∀ cd, getConnectedDevice devices targetAddress = some cd →
      cd.instanceId = device.instanceId →
      handleConnParamUpdateRequest devices targetAddress device updateError =
        some (match updateError with
          | some msg => Except.error (createError ErrorCode.CONNECTION_PARAM_ERROR msg)
          | none => Except.ok ())) ∧
    (∀ msg e,
      handleConnParamUpdateRequest devices targetAddress device (some msg) =
        some (Except.error e) →
      e.code = ErrorCode.CONNECTION_PARAM_ERROR ∧ e.message = msg) ∧
    (∀ updateError2 : Option String,
      (sendFirmwareWithConnParamRequest env state c devices targetAddress device
          updateError).1 =
        (sendFirmwareWithConnParamRequest env state c devices targetAddress device
          updateError2).1) := by
  refine ⟨?_, ?_, ?_⟩
  · intro cd hcd hid
    simp [handleConnParamUpdateRequest, hcd, hid]
  · intro msg e h
    unfold handleConnParamUpdateRequest at h
    split at h
    next cd hcd =>
      split at h
      · simp only [Option.some_inj] at h
        injection h with h2
        subst h2
        exact ⟨rfl, rfl⟩
      · simp at h
    next => simp at h
  · intro updateError2
    rfl

/-- Witness for C8: a request from the connected target whose application
fails surfaces as CONNECTION_PARAM_ERROR with the adapter message. -/
theorem claim_c8_witness :
    handleConnParamUpdateRequest
        [{ instanceId := 1, address := "AA", connected := true }] "AA"
        { instanceId := 1, address := "AA", connected := true } (some "boom") =
      some (Except.error (createError ErrorCode.CONNECTION_PARAM_ERROR "boom")) :=
  (claim_c8 [{ instanceId := 1, address := "AA", connected := true }] "AA"
      { instanceId := 1, address := "AA", connected := true } (some "boom")
      { createResult := fun _ => Except.ok (),
        writeResult := fun _ => Except.ok { offset := 0, crc32 := 0 },
        checksumResult := fun _ => Except.ok { offset := 0, crc32 := 0 },
        executeResult := fun _ => Except.ok () }
      { offset := 0, crc32 := 0, remainingObjects := [],
        remainingPartialObject := [], isResumable := false }
      { creates := 0, writes := 0, checksums := 0, executes := 0 }).1
    { instanceId := 1, address := "AA", connected := true } rfl rfl

/-- Witness for C10: with both fields differing the offset check fires first,
and with equal offsets a differing crc yields the crc error. -/
theorem claim_c10_witness :
    (∃ e, validateProgressCheck { offset := 1, crc32 := 2 } { offset := 3, crc32 := 4 } =
        Except.error e ∧ e.code = ErrorCode.INVALID_OFFSET) ∧
    (∃ e, validateProgressCheck { offset := 1, crc32 := 2 } { offset := 1, crc32 := 4 } =
        Except.error e ∧ e.code = ErrorCode.INVALID_CRC) :=
  ⟨(claim_c10 { offset := 1, crc32 := 2 } { offset := 3, crc32 := 4 }).1 (by decide),
   (claim_c10 { offset := 1, crc32 := 2 } { offset := 1, crc32 := 4 }).2.1 rfl (by decide)⟩

/-- C7: waitForDisconnection resolves immediately when no device with the
target address is connected; otherwise it resolves when a disconnection event
for the connected target arrives, fails with DisconnectionTimeout if none
arrives within the timeout window, and in every outcome leaves no pending
timer and no attached listener. -/
theorem claim_c7 (devices : List Device) (targetAddress : String)
    (events : List Device) :
    (getConnectedDevice devices targetAddress = none →
      waitForDisconnection devices targetAddress events =
        { result := Except.ok (), timerPending := false, listenerAttached := false }) ∧
    (∀ cd, getConnectedDevice devices targetAddress = some cd →
      ((∃ e ∈ events, e.instanceId = cd.instanceId) →
        (waitForDisconnection devices targetAddress events).result = Except.ok ()) ∧
      ((∀ e ∈ events, e.instanceId ≠ cd.instanceId) →
        (waitForDisconnection devices targetAddress events).result =
          Except.error (createError ErrorCode.DISCONNECTION_TIMEOUT
            "Timed out when waiting for target device to disconnect."))) ∧
    ((waitForDisconnection devices targetAddress events).timerPending = false ∧
      (waitForDisconnection devices targetAddress events).listenerAttached = false) := by
  refine ⟨?_, ?_, ?_⟩
  · intro h
    simp [waitForDisconnection, h]
  · intro cd hcd
    constructor
    · intro hex
      simp only [waitForDisconnection, hcd]
      exact waitLoop_ok_of_mem cd events hex
    · intro hall
      simp only [waitForDisconnection, hcd]
      rw [waitLoop_timeout_of_not_mem cd events hall]
  · unfold waitForDisconnection
    split
    · exact ⟨rfl, rfl⟩
    next cd hcd => exact waitLoop_no_leak cd events

/-- Witness for C7: with no connected target the wait resolves at once; with a
connected target and no matching event it times out. -/
theorem claim_c7_witness :
    waitForDisconnection [] "AA" [] =
      { result := Except.ok (), timerPending := false, listenerAttached := false } ∧
    (waitForDisconnection [{ instanceId := 1, address := "AA", connected := true }]
        "AA" [{ instanceId := 2, address := "BB", connected := false }]).result =
      Except.error (createError ErrorCode.DISCONNECTION_TIMEOUT
        "Timed out when waiting for target device to disconnect.") :=
  ⟨(claim_c7 [] "AA" []).1 rfl,
   ((claim_c7 [{ instanceId := 1, address := "AA", connected := true }] "AA"
        [{ instanceId := 2, address := "BB", connected := false }]).2.1
      { instanceId := 1, address := "AA", connected := true } rfl).2
     (by intro e he; fin_cases he; decide)⟩

/-- C2: for every object written via the writeObject chain, the checksum
cross-check runs right after the writer completes, execute is issued only
when the cross-check succeeds, and a mismatch rejects the chain with the
validation error (InvalidOffset or InvalidCrc) before execute is reached. -/
theorem claim_c2 (env : DeviceEnv) (data : List Nat) (objectType : Nat)
    (offset crc32 : Option Nat) (c : Counters) :
    (DfuAction.execute ∈ (writeObject env data objectType offset crc32 c).1 →
      ∃ p resp, env.writeResult c.writes = Except.ok p ∧
        env.checksumResult c.checksums = Except.ok resp ∧
        validateProgressCheck p resp = Except.ok ()) ∧
    (∀ p resp e, env.writeResult c.writes = Except.ok p →
      env.checksumResult c.checksums = Except.ok resp →
      validateProgressCheck p resp = Except.error e →
      writeObject env data objectType offset crc32 c =
        ([DfuAction.writerWrite data.length offset crc32, DfuAction.calculateChecksum],
          bumpChecksums (bumpWrites c), Except.error e)) ∧
    (∀ p resp, env.writeResult c.writes = Except.ok p →
      env.checksumResult c.checksums = Except.ok resp →
      validateProgressCheck p resp = Except.ok () →
      env.executeResult c.executes = Except.ok () →
      writeObject env data objectType offset crc32 c =
        ([DfuAction.writerWrite data.length offset crc32, DfuAction.calculateChecksum,
            DfuAction.execute],
          bumpExecutes (bumpChecksums (bumpWrites c)), Except.ok p)) ∧
    (∀ p resp e, validateProgressCheck p resp = Except.error e →
      e.code = ErrorCode.INVALID_OFFSET ∨ e.code = ErrorCode.INVALID_CRC) := by
  refine ⟨?_, ?_, ?_, ?_⟩
  · rw [writeObject_run]
    cases hw : env.writeResult c.writes with
    | error e => intro hmem; simp at hmem
    | ok p =>
      cases hc : env.checksumResult c.checksums with
      | error e => intro hmem; simp at hmem
      | ok resp =>
        cases hv : validateProgressCheck p resp with
        | error e => intro hmem; simp [hv] at hmem
        | ok u =>
          cases he : env.executeResult c.executes with
          | error e => intro hmem; exact ⟨p, resp, rfl, rfl, hv⟩
          | ok v => intro hmem; exact ⟨p, resp, rfl, rfl, hv⟩
  · intro p resp e hw hc hv
    rw [writeObject_run]
    simp only [hw, hc, hv]
  · intro p resp hw hc hv he
    rw [writeObject_run]
    simp only [hw, hc, hv, he]
  · intro p resp e hv
    unfold validateProgressCheck at hv
    split at hv
    · injection hv with hv2
      subst hv2
      left
      rfl
    · split at hv
      · injection hv with hv2
        subst hv2
        right
        rfl
      · simp at hv

/-- Witness for C2: on the fully successful path the chain performs write,
checksum, execute in order and resolves with the progress reported by the writer. -/
theorem claim_c2_witness :
    writeObject
        { createResult := fun _ => Except.ok (),
          writeResult := fun _ => Except.ok { offset := 4, crc32 := 9 },
          checksumResult := fun _ => Except.ok { offset := 4, crc32 := 9 },
          executeResult := fun _ => Except.ok () }
        [1, 2] ObjectType.COMMAND none none
        { creates := 0, writes := 0, checksums := 0, executes := 0 } =
      ([DfuAction.writerWrite 2 none none, DfuAction.calculateChecksum,
          DfuAction.execute],
        { creates := 0, writes := 1, checksums := 1, executes := 1 },
        Except.ok { offset := 4, crc32 := 9 }) :=
  (claim_c2
      { createResult := fun _ => Except.ok (),
        writeResult := fun _ => Except.ok { offset := 4, crc32 := 9 },
        checksumResult := fun _ => Except.ok { offset := 4, crc32 := 9 },
        executeResult := fun _ => Except.ok () }
      [1, 2] ObjectType.COMMAND none none
      { creates := 0, writes := 0, checksums := 0, executes := 0 }).2.2.1
    { offset := 4, crc32 := 9 } { offset := 4, crc32 := 9 } rfl rfl rfl rfl

/-- Congruence for the continuation of a promise chain. -/
theorem mbind_congr_right {α β : Type} (x : M α) (f g : α → M β)
    (h : ∀ a, f a = g a) : mbind x f = mbind x g :=
  congrArg (mbind x) (funext h)

/-- C3: sendFirmware is a strictly sequential fold over the remaining work:
when resumable it first writes the remaining partial object from the
device-reported offset/crc32 and only then the remaining whole objects; the
whole objects are processed in their given order by the explicit sequential
fold, each step consuming the progress produced by the previous step. -/
theorem claim_c3 (env : DeviceEnv) (state : FirmwareState) :
    sendFirmware env state =
      if state.isResumable then
        mbind
          (writeObject env state.remainingPartialObject ObjectType.DATA
            (some state.offset) (some state.crc32))
          (fun progress =>
            sequentialObjectFold env ObjectType.DATA state.remainingObjects
              { offset := progress.offset, crc32 := progress.crc32 })
      else
        sequentialObjectFold env ObjectType.DATA state.remainingObjects
          { offset := state.offset, crc32 := state.crc32 } := by
  unfold sendFirmware
  cases h : state.isResumable with
  | true =>
    simp only [if_true]
    apply mbind_congr_right
    intro progress
    exact createAndWriteObjects_eq_fold env state.remainingObjects ObjectType.DATA
      progress.offset progress.crc32
  | false =>
    simp only [Bool.false_eq_true, if_false]
    exact createAndWriteObjects_eq_fold env state.remainingObjects ObjectType.DATA
      state.offset state.crc32

/-- C5: a resumed write is performed by the writeObject chain directly: the
resumable init packet path is literally that chain, no createObject command
ever appears in the trace of a writeObject chain, and a failure of the resumed
partial-object write in sendFirmware propagates as is, with no retry and no
createObject issued. -/
theorem claim_c5 (env : DeviceEnv) (c : Counters) :
    (∀ state : InitPacketState, state.isResumable = true →
      sendInitPacket env state c =
        writeObject env state.remainingData ObjectType.COMMAND
          (some state.offset) (some state.crc32) c) ∧
    (∀ state : InitPacketState, state.isResumable = true →
      countCreates (sendInitPacket env state c).1 = 0) ∧
    (∀ (state : FirmwareState) (tr : List DfuAction) (c2 : Counters) (e : DfuError),
      state.isResumable = true →
      writeObject env state.remainingPartialObject ObjectType.DATA
          (some state.offset) (some state.crc32) c = (tr, c2, Except.error e) →
      sendFirmware env state c = (tr, c2, Except.error e) ∧ countCreates tr = 0) := by
  refine ⟨?_, ?_, ?_⟩
  · intro state h
    unfold sendInitPacket
    rw [h]
    simp
  · intro state h
    unfold sendInitPacket
    rw [h]
    simp only [if_true]
    exact writeObject_countCreates env state.remainingData ObjectType.COMMAND
      (some state.offset) (some state.crc32) c
  · intro state tr c2 e h hw
    have hcnt := writeObject_countCreates env state.remainingPartialObject
      ObjectType.DATA (some state.offset) (some state.crc32) c
    rw [hw] at hcnt
    replace hcnt : countCreates tr = 0 := hcnt
    constructor
    · unfold sendFirmware
      rw [h]
      simp only [if_true]
      unfold mbind
      rw [hw]
    · exact hcnt

/-- Witness for C5: a resumable firmware state whose partial-object write
fails propagates the writer error with no createObject command issued. -/
theorem claim_c5_witness :
    sendFirmware
        { createResult := fun _ => Except.ok (),
          writeResult := fun _ => Except.error (createError ErrorCode.WRITE_ERROR "w"),
          checksumResult := fun _ => Except.ok { offset := 0, crc32 := 0 },
          executeResult := fun _ => Except.ok () }
        { offset := 5, crc32 := 6, remainingObjects := [[1]],
          remainingPartialObject := [9], isResumable := true }
        { creates := 0, writes := 0, checksums := 0, executes := 0 } =
      ([DfuAction.writerWrite 1 (some 5) (some 6)],
        { creates := 0, writes := 1, checksums := 0, executes := 0 },
        Except.error (createError ErrorCode.WRITE_ERROR "w")) ∧
    countCreates [DfuAction.writerWrite 1 (some 5) (some 6)] = 0 :=
  (claim_c5
      { createResult := fun _ => Except.ok (),
        writeResult := fun _ => Except.error (createError ErrorCode.WRITE_ERROR "w"),
        checksumResult := fun _ => Except.ok { offset := 0, crc32 := 0 },
        executeResult := fun _ => Except.ok () }
      { creates := 0, writes := 0, checksums := 0, executes := 0 }).2.2
    { offset := 5, crc32 := 6, remainingObjects := [[1]],
      remainingPartialObject := [9], isResumable := true }
    [DfuAction.writerWrite 1 (some 5) (some 6)]
    { creates := 0, writes := 1, checksums := 0, executes := 0 }
    (createError ErrorCode.WRITE_ERROR "w") rfl rfl

/-- C4: init is idempotent: when the engine is already initialized, init
resolves immediately with no connect, discovery, notification or negotiation
step; and once any init run has completed successfully the flag is set, so a
subsequent init call resolves immediately and running init twice is
observationally the running of it once. -/
theorem claim_c4 (params : TransportParameters) (env : InitEnv) :
    (∀ fuel : Nat, init params env fuel true = some ([], true, Except.ok ())) ∧
    (∀ (fuel fuel2 : Nat) (tr : List InitAction) (st2 : Bool),
      init params env fuel false = some (tr, st2, Except.ok ()) →
      init params env fuel2 st2 = some ([], true, Except.ok ())) := by
  constructor
  · intro fuel
    cases fuel <;> rfl
  · intro fuel fuel2 tr st2 h
    have hst := init_ok_flag params env fuel false tr st2 h
    subst hst
    cases fuel2 <;> rfl

/-- Witness for C4: after a completed run the flag is true and a second init
call performs no actions. -/
theorem claim_c4_witness :
    init { prnValue := 0, mtuSize := 0 }
        { connectResult := Except.ok (), discoverResult := Except.ok (),
          notifyError := none, setPrnCommandResult := Except.ok () }
        1 false =
      some ([InitAction.connect, InitAction.discoverCharacteristics,
        InitAction.startNotifications], true, Except.ok ()) ∧
    init { prnValue := 0, mtuSize := 0 }
        { connectResult := Except.ok (), discoverResult := Except.ok (),
          notifyError := none, setPrnCommandResult := Except.ok () }
        1 true =
      some ([], true, Except.ok ()) :=
  ⟨rfl,
   (claim_c4 { prnValue := 0, mtuSize := 0 }
      { connectResult := Except.ok (), discoverResult := Except.ok (),
        notifyError := none, setPrnCommandResult := Except.ok () }).2 1 1
     [InitAction.connect, InitAction.discoverCharacteristics,
       InitAction.startNotifications] true rfl⟩

/-- C1: an object transfer started by the createAndWriteObject retry loop is
retried from the same starting offset and crc32, with a ceiling of
MAX_RETRIES = 3 total attempts; a failure whose code is Aborted or
NotificationTimeout is never retried and propagates immediately; after three
failed attempts the last error propagates unchanged; and fewer than three
failures followed by a success yields that success. -/
theorem claim_c1 (env : DeviceEnv) (data : List Nat) (objectType : Nat)
    (offset crc32 : Option Nat) :
    (∀ (attempts : Nat) (c : Counters) (tr : List DfuAction) (c2 : Counters)
        (e : DfuError),
      attemptOnce env data objectType offset crc32 c = (tr, c2, Except.error e) →
      (e.code = ErrorCode.ABORTED ∨ e.code = ErrorCode.NOTIFICATION_TIMEOUT) →
      tryWrite env data objectType offset crc32 attempts c = (tr, c2, Except.error e)) ∧
    (∀ (c : Counters) (tr1 : List DfuAction) (c1 : Counters) (e1 : DfuError)
        (tr2 : List DfuAction) (c2 : Counters) (e2 : DfuError)
        (tr3 : List DfuAction) (c3 : Counters) (e3 : DfuError),
      attemptOnce env data objectType offset crc32 c = (tr1, c1, Except.error e1) →
      e1.code ≠ ErrorCode.ABORTED → e1.code ≠ ErrorCode.NOTIFICATION_TIMEOUT →
      attemptOnce env data objectType offset crc32 c1 = (tr2, c2, Except.error e2) →
      e2.code ≠ ErrorCode.ABORTED → e2.code ≠ ErrorCode.NOTIFICATION_TIMEOUT →
      attemptOnce env data objectType offset crc32 c2 = (tr3, c3, Except.error e3) →
      createAndWriteObject env data objectType offset crc32 c =
        (tr1 ++ (tr2 ++ tr3), c3, Except.error e3)) ∧
    (∀ (c : Counters) (tr1 : List DfuAction) (c1 : Counters) (e1 : DfuError)
        (tr2 : List DfuAction) (c2 : Counters) (e2 : DfuError)
        (tr3 : List DfuAction) (c3 : Counters) (p : Progress),
      attemptOnce env data objectType offset crc32 c = (tr1, c1, Except.error e1) →
      e1.code ≠ ErrorCode.ABORTED → e1.code ≠ ErrorCode.NOTIFICATION_TIMEOUT →
      attemptOnce env data objectType offset crc32 c1 = (tr2, c2, Except.error e2) →
      e2.code ≠ ErrorCode.ABORTED → e2.code ≠ ErrorCode.NOTIFICATION_TIMEOUT →
      attemptOnce env data objectType offset crc32 c2 = (tr3, c3, Except.ok p) →
      createAndWriteObject env data objectType offset crc32 c =
        (tr1 ++ (tr2 ++ tr3), c3, Except.ok p)) ∧
    (∀ c : Counters,
      countCreates (createAndWriteObject env data objectType offset crc32 c).1 ≤
        MAX_RETRIES ∧
      ∀ a ∈ (createAndWriteObject env data objectType offset crc32 c).1,
        usesStart offset crc32 a) := by
  have hM : MAX_RETRIES = 3 := rfl
  refine ⟨?_, ?_, ?_, ?_⟩
  · intro attempts c tr c2 e ha hcode
    exact tryWrite_of_error_stop env data objectType offset crc32 attempts c tr c2 e ha
      (shouldRetry_false_of_terminal (attempts + 1) e hcode)
  · intro c tr1 c1 e1 tr2 c2 e2 tr3 c3 e3 h1 h2 h3 h4 h5 h6 h7
    have hs1 : shouldRetry (0 + 1) e1 = true :=
      shouldRetry_true_of (0 + 1) e1 (by omega) h2 h3
    have hs2 : shouldRetry (0 + 1 + 1) e2 = true :=
      shouldRetry_true_of (0 + 1 + 1) e2 (by omega) h5 h6
    have hs3 : shouldRetry (0 + 1 + 1 + 1) e3 = false :=
      shouldRetry_false_of_exhausted (0 + 1 + 1 + 1) e3 (by omega)
    show tryWrite env data objectType offset crc32 0 c = _
    rw [tryWrite_of_error_retry env data objectType offset crc32 0 c tr1 c1 e1 h1 hs1,
      tryWrite_of_error_retry env data objectType offset crc32 (0 + 1) c1 tr2 c2 e2 h4 hs2,
      tryWrite_of_error_stop env data objectType offset crc32 (0 + 1 + 1) c2 tr3 c3 e3 h7 hs3]
  · intro c tr1 c1 e1 tr2 c2 e2 tr3 c3 p h1 h2 h3 h4 h5 h6 h7
    have hs1 : shouldRetry (0 + 1) e1 = true :=
      shouldRetry_true_of (0 + 1) e1 (by omega) h2 h3
    have hs2 : shouldRetry (0 + 1 + 1) e2 = true :=
      shouldRetry_true_of (0 + 1 + 1) e2 (by omega) h5 h6
    show tryWrite env data objectType offset crc32 0 c = _
    rw [tryWrite_of_error_retry env data objectType offset crc32 0 c tr1 c1 e1 h1 hs1,
      tryWrite_of_error_retry env data objectType offset crc32 (0 + 1) c1 tr2 c2 e2 h4 hs2,
      tryWrite_of_ok env data objectType offset crc32 (0 + 1 + 1) c2 tr3 c3 p h7]
  · intro c
    have hinv := tryWrite_trace_inv env data objectType offset crc32 MAX_RETRIES 0 c
      (by omega)
    constructor
    · have h1 := hinv.1
      show countCreates (tryWrite env data objectType offset crc32 0 c).1 ≤ MAX_RETRIES
      omega
    · exact hinv.2

/-- Witness for C1: an environment whose createObject command always fails
with COMMAND_ERROR exhausts the three attempts and propagates the last
error. -/
theorem claim_c1_witness :
    createAndWriteObject
        { createResult := fun _ =>
            Except.error (createError ErrorCode.COMMAND_ERROR "create failed"),
          writeResult := fun _ => Except.ok { offset := 0, crc32 := 0 },
          checksumResult := fun _ => Except.ok { offset := 0, crc32 := 0 },
          executeResult := fun _ => Except.ok () }
        [0] ObjectType.DATA (some 0) (some 0)
        { creates := 0, writes := 0, checksums := 0, executes := 0 } =
      ([DfuAction.createObject ObjectType.DATA 1,
        DfuAction.createObject ObjectType.DATA 1,
        DfuAction.createObject ObjectType.DATA 1],
        { creates := 3, writes := 0, checksums := 0, executes := 0 },
        Except.error (createError ErrorCode.COMMAND_ERROR "create failed")) :=
  (claim_c1
      { createResult := fun _ =>
          Except.error (createError ErrorCode.COMMAND_ERROR "create failed"),
        writeResult := fun _ => Except.ok { offset := 0, crc32 := 0 },
        checksumResult := fun _ => Except.ok { offset := 0, crc32 := 0 },
        executeResult := fun _ => Except.ok () }
      [0] ObjectType.DATA (some 0) (some 0)).2.1
    { creates := 0, writes := 0, checksums := 0, executes := 0 }
    [DfuAction.createObject ObjectType.DATA 1]
    { creates := 1, writes := 0, checksums := 0, executes := 0 }
    (createError ErrorCode.COMMAND_ERROR "create failed")
    [DfuAction.createObject ObjectType.DATA 1]
    { creates := 2, writes := 0, checksums := 0, executes := 0 }
    (createError ErrorCode.COMMAND_ERROR "create failed")
    [DfuAction.createObject ObjectType.DATA 1]
    { creates := 3, writes := 0, checksums := 0, executes := 0 }
    (createError ErrorCode.COMMAND_ERROR "create failed")
    rfl (by decide) (by decide) rfl (by decide) (by decide) rfl
